import Mathlib

/-!
Verification of the Agama network D-Bus interface layer
(`src/rust/agama-dbus-server/src/network/dbus/interfaces.rs`).

The file shallowly embeds the data model and the property-surface
operations of that module.  Pure Rust code becomes Lean functions; the
mutex-guarded mutation of the shared connection plus the enqueue of an
action becomes explicit state passing: every setter takes the connection
state held when the lock was acquired and returns the outcome (new
state, enqueued actions, error, or a process abort via panic).

Parsing of IP addresses follows the algorithm of Rust's standard
library (`core::net::parser`), which the source calls through
`str::parse::<Ipv4Addr>` / `str::parse::<Ipv6Addr>`.
-/

namespace Agama

/-! ## Model of Rust `core::net::parser` -/

/-- `Char::to_digit(radix)` for the radices used by the address parser
(10 and 16). -/
def digitToNat (radix : Nat) (c : Char) : Option Nat :=
  if '0' ≤ c ∧ c ≤ '9' then
    let d := c.toNat - '0'.toNat
    if d < radix then some d else none
  else if 'a' ≤ c ∧ c ≤ 'f' then
    let d := c.toNat - 'a'.toNat + 10
    if d < radix then some d else none
  else if 'A' ≤ c ∧ c ≤ 'F' then
    let d := c.toNat - 'A'.toNat + 10
    if d < radix then some d else none
  else none

/-- The digit-accumulation loop of `Parser::read_number`: consumes
digits, failing on checked-arithmetic overflow past `maxBound` or on
exceeding `maxDigits`.  Returns the accumulated value, the unconsumed
input and the digit count. -/
def readNumberLoop (radix maxBound : Nat) (maxDigits : Option Nat) :
    List Char → Nat → Nat → Option (Nat × List Char × Nat)
  | [], acc, count => some (acc, [], count)
  | c :: rest, acc, count =>
    match digitToNat radix c with
    | none => some (acc, c :: rest, count)
    | some d =>
      let acc2 := acc * radix + d
      if acc2 > maxBound then none
      else if maxDigits.elim false (fun m => count + 1 > m) then none
      else readNumberLoop radix maxBound maxDigits rest acc2 (count + 1)

/-- `Parser::read_number`: at least one digit, optional leading-zero
rejection (used for IPv4 octets), bounded magnitude and digit count. -/
def readNumber (radix maxBound : Nat) (maxDigits : Option Nat)
    (allowZeroPrefix : Bool) (s : List Char) : Option (Nat × List Char) :=
  let hasLeadingZero := s.head? = some '0'
  match readNumberLoop radix maxBound maxDigits s 0 0 with
  | none => none
  | some (acc, rest, count) =>
    if count = 0 then none
    else if !allowZeroPrefix && hasLeadingZero && count > 1 then none
    else some (acc, rest)

/-- `Parser::read_given_char`. -/
def readGivenChar (c : Char) : List Char → Option (List Char)
  | [] => none
  | x :: rest => if x = c then some rest else none

/-- An IPv4 address: four octets. The parser only produces octets below
256. -/
structure Ipv4Addr where
  o1 : Nat
  o2 : Nat
  o3 : Nat
  o4 : Nat
deriving DecidableEq, Repr

/-- An IPv6 address: eight 16-bit groups. -/
structure Ipv6Addr where
  segments : List Nat
deriving DecidableEq, Repr

/-- `Parser::read_ipv4_addr`: four decimal octets (`read_number(10,
Some(3), false)`, so no leading zeros) separated by dots. -/
def readIpv4Addr (s : List Char) : Option (Ipv4Addr × List Char) :=
  match readNumber 10 255 (some 3) false s with
  | none => none
  | some (a, s1) =>
    match readGivenChar '.' s1 with
    | none => none
    | some s2 =>
      match readNumber 10 255 (some 3) false s2 with
      | none => none
      | some (b, s3) =>
        match readGivenChar '.' s3 with
        | none => none
        | some s4 =>
          match readNumber 10 255 (some 3) false s4 with
          | none => none
          | some (c, s5) =>
            match readGivenChar '.' s5 with
            | none => none
            | some s6 =>
              match readNumber 10 255 (some 3) false s6 with
              | none => none
              | some (d, s7) => some (⟨a, b, c, d⟩, s7)

/-- One iteration attempt of `read_groups`: the optional `':'` separator
(`read_separator`) followed by the inner reader, atomically. -/
def readSeparated (i : Nat) (inner : List Char → Option (α × List Char))
    (s : List Char) : Option (α × List Char) :=
  if i = 0 then inner s
  else
    match readGivenChar ':' s with
    | none => none
    | some s1 => inner s1

/-- `read_groups` of `Parser::read_ipv6_addr`: reads up to `limit`
16-bit hex groups (a trailing embedded IPv4 address may fill the last
two remaining slots).  Returns the groups read, whether an embedded IPv4
address ended the run, and the unconsumed input. -/
def readGroupsAux (limit : Nat) : Nat → List Nat → List Char →
    (List Nat × Bool × List Char)
  | 0, acc, s => (acc, false, s)
  | fuel + 1, acc, s =>
    let i := acc.length
    let tryGroup : List Nat × Bool × List Char :=
      match readSeparated i (readNumber 16 65535 (some 4) true) s with
      | some (g, rest) => readGroupsAux limit fuel (acc ++ [g]) rest
      | none => (acc, false, s)
    if i + 1 < limit then
      match readSeparated i readIpv4Addr s with
      | some (v4, rest) =>
        (acc ++ [v4.o1 * 256 + v4.o2, v4.o3 * 256 + v4.o4], true, rest)
      | none => tryGroup
    else tryGroup

/-- `Parser::read_ipv6_addr`: head groups, optional `::` gap, tail
groups; the gap is filled with zero groups. -/
def readIpv6Addr (s : List Char) : Option (Ipv6Addr × List Char) :=
  let (head, headIpv4, s1) := readGroupsAux 8 8 [] s
  if head.length = 8 then some (⟨head⟩, s1)
  else if headIpv4 then none
  else
    match readGivenChar ':' s1 with
    | none => none
    | some s2 =>
      match readGivenChar ':' s2 with
      | none => none
      | some s3 =>
        let limit := 8 - (head.length + 1)
        let (tail, _, s4) := readGroupsAux limit limit [] s3
        some (⟨head ++ List.replicate (8 - head.length - tail.length) 0 ++ tail⟩, s4)

/-- `Ipv4Addr::from_str`: the whole string must be consumed. -/
def parseIpv4Addr (s : String) : Option Ipv4Addr :=
  match readIpv4Addr s.data with
  | some (a, []) => some a
  | _ => none

/-- `Ipv6Addr::from_str`: the whole string must be consumed. -/
def parseIpv6Addr (s : String) : Option Ipv6Addr :=
  match readIpv6Addr s.data with
  | some (a, []) => some a
  | _ => none

/-! ## Enumerations of the configuration model

The enum types live in `agama-dbus-server/src/network/model.rs` and
`agama-lib/src/network/types.rs`, which are not part of the verified
sources; they are modelled from the spec's fixed string vocabularies. -/

/-- Modelled from the spec: device/connection type enum, `Type: uint8`
with `0 = loopback, 1 = ethernet, 2 = wireless`
(`agama_lib::network::types::DeviceType` is not under `src/`). -/
inductive DeviceType
  | loopback
  | ethernet
  | wireless
deriving DecidableEq, Repr

/-- Modelled from the spec: `TryFrom<u8> for DeviceType`; bytes other
than 0, 1, 2 do not correspond to a known device type and fail. -/
def deviceTypeFromByte : Nat → Option DeviceType
  | 0 => some .loopback
  | 1 => some .ethernet
  | 2 => some .wireless
  | _ => none

/-- Modelled from the spec: IP configuration method enum, with the
string vocabulary "disabled", "auto", "manual", "link-local"
(`model::IpMethod` is not under `src/`). -/
inductive IpMethod
  | disabled
  | auto
  | manual
  | linkLocal
deriving DecidableEq, Repr

/-- Modelled from the spec: strict `FromStr` parse of `IpMethod`;
unrecognized strings fail. -/
def parseIpMethod : String → Option IpMethod
  | "disabled" => some .disabled
  | "auto" => some .auto
  | "manual" => some .manual
  | "link-local" => some .linkLocal
  | _ => none

/-- Modelled from the spec: wireless mode enum, vocabulary "unknown",
"adhoc", "infrastructure", "ap", "mesh" (`model::WirelessMode` is not
under `src/`). -/
inductive WirelessMode
  | unknown
  | adhoc
  | infrastructure
  | ap
  | mesh
deriving DecidableEq, Repr

/-- Modelled from the spec: strict parse of `WirelessMode`. -/
def parseWirelessMode : String → Option WirelessMode
  | "unknown" => some .unknown
  | "adhoc" => some .adhoc
  | "infrastructure" => some .infrastructure
  | "ap" => some .ap
  | "mesh" => some .mesh
  | _ => none

/-- Modelled from the spec: wireless security protocol enum, vocabulary
"none", "owe", "ieee8021x", "wpa-psk", "sae", "wpa-eap",
"wpa-eap-suite-b192" (`model::SecurityProtocol` is not under `src/`). -/
inductive SecurityProtocol
  | none
  | owe
  | ieee8021x
  | wpaPsk
  | sae
  | wpaEap
  | wpaEapSuiteB192
deriving DecidableEq, Repr

/-- Modelled from the spec: strict parse of `SecurityProtocol`. -/
def parseSecurityProtocol : String → Option SecurityProtocol
  | "none" => some .none
  | "owe" => some .owe
  | "ieee8021x" => some .ieee8021x
  | "wpa-psk" => some .wpaPsk
  | "sae" => some .sae
  | "wpa-eap" => some .wpaEap
  | "wpa-eap-suite-b192" => some .wpaEapSuiteB192
  | _ => none

/-! ## The connection model

`model::Connection` and its parts are not under `src/`; they are
modelled from the spec's data model: a tagged union over ethernet,
loopback and wireless, with shared fields id, interface, match-config,
ipv4-config and ipv6-config, the wireless variant additionally carrying
ssid, mode, password and security. -/

/-- Modelled from the spec: the match configuration, four string
lists. -/
structure MatchConfig where
  driver : List String
  path : List String
  interface : List String
  kernel : List String
deriving DecidableEq, Repr

/-- Modelled from the spec: per-family IP configuration — address/prefix
entries, method, nameservers, optional gateway.  An address entry is the
parsed address paired with its prefix length. -/
structure IpConfig (α : Type) where
  addresses : List (α × Nat)
  method : IpMethod
  nameservers : List α
  gateway : Option α
deriving DecidableEq, Repr

/-- Modelled from the spec: the fields shared by every connection
variant. -/
structure BaseConnection where
  id : String
  interface : String
  matchConfig : MatchConfig
  ipv4 : IpConfig Ipv4Addr
  ipv6 : IpConfig Ipv6Addr
deriving DecidableEq, Repr

/-- Modelled from the spec: the wireless-only fields (ssid is a raw byte
sequence). -/
structure WirelessConfig where
  ssid : List Nat
  mode : WirelessMode
  password : Option String
  security : SecurityProtocol
deriving DecidableEq, Repr

/-- Modelled from the spec: `model::WirelessConnection` — base fields
plus the wireless configuration. -/
structure WirelessConnection where
  base : BaseConnection
  wireless : WirelessConfig
deriving DecidableEq, Repr

/-- Modelled from the spec: `model::Connection`, a tagged union over at
least ethernet and wireless (loopback is the third device kind). -/
inductive NetworkConnection
  | ethernet (base : BaseConnection)
  | loopback (base : BaseConnection)
  | wireless (conn : WirelessConnection)
deriving DecidableEq, Repr

/-- Modelled from the spec: the shared-field projection used by
`Connection::id()`, `interface()`, `match_config()`, `ipv4()`,
`ipv6()`. -/
def NetworkConnection.base : NetworkConnection → BaseConnection
  | .ethernet b => b
  | .loopback b => b
  | .wireless w => w.base

/-- Modelled from the spec: the shared-field mutation used by
`set_interface`, `match_config_mut()`, `ipv4_mut()`, `ipv6_mut()`; the
variant and the wireless-only fields are untouched. -/
def NetworkConnection.mapBase (f : BaseConnection → BaseConnection) :
    NetworkConnection → NetworkConnection
  | .ethernet b => .ethernet (f b)
  | .loopback b => .loopback (f b)
  | .wireless w => .wireless { w with base := f w.base }

/-- `Wireless::get_wireless` succeeds exactly on the wireless
variant. -/
def getWireless : NetworkConnection → Option WirelessConnection
  | .wireless w => some w
  | _ => none

/-- Modelled from the spec: `IpAddress<T>` entries are written
"address/prefix"; the address part parses with the family's parser and
the prefix is an unsigned 32-bit decimal number
(`model::IpAddress` is not under `src/`). -/
def parseIpAddress (famParse : String → Option α) (s : String) :
    Option (α × Nat) :=
  match s.data.splitOn '/' with
  | [a, p] =>
    match famParse ⟨a⟩, readNumber 10 4294967295 Option.none true p with
    | some addr, some (n, []) => some (addr, n)
    | _, _ => Option.none
  | _ => Option.none

/-- `str::parse::<IpAddress<Ipv4Addr>>`. -/
def parseIpAddress4 (s : String) : Option (Ipv4Addr × Nat) :=
  parseIpAddress parseIpv4Addr s

/-- `str::parse::<IpAddress<Ipv6Addr>>`. -/
def parseIpAddress6 (s : String) : Option (Ipv6Addr × Nat) :=
  parseIpAddress parseIpv6Addr s

/-! ## Registry, action queue, outcome types -/

/-- Modelled from the spec: the object-path registry maps entity
identifiers to path identifiers for devices and for connections
(`dbus::ObjectsRegistry` is not under `src/`). -/
structure ObjectsRegistry where
  devices : List (String × String)
  connections : List (String × String)
deriving DecidableEq, Repr

/-- Modelled from the spec: `devicesPaths()` — the ordered sequence of
registered device paths. -/
def ObjectsRegistry.devices_paths (r : ObjectsRegistry) : List String :=
  r.devices.map Prod.snd

/-- Modelled from the spec: `connectionsPaths()` — the ordered sequence
of registered connection paths. -/
def ObjectsRegistry.connections_paths (r : ObjectsRegistry) : List String :=
  r.connections.map Prod.snd

/-- Modelled from the spec: `connectionPath(id)` — none if no connection
with that id is registered. -/
def ObjectsRegistry.connection_path (r : ObjectsRegistry) (id : String) :
    Option String :=
  (r.connections.find? (fun p => p.fst == id)).map Prod.snd

/-- `zbus::zvariant::ObjectPath::try_from` validation contract: "/" or
'/'-separated nonempty elements of `[A-Za-z0-9_]`, starting with '/'
and not ending with one. -/
def validPathChar (c : Char) : Bool :=
  c.isAlphanum || c = '_'

/-- Whether a string is a syntactically valid D-Bus object path. -/
def validObjectPath (s : String) : Bool :=
  match s.data with
  | '/' :: rest =>
    if rest.isEmpty then true
    else (rest.splitOn '/').all (fun e => !e.isEmpty && e.all validPathChar)
  | _ => false

/-- The intents pushed to the action queue
(`network::action::Action`). -/
inductive Action
  | addConnection (id : String) (ty : DeviceType)
  | removeConnection (id : String)
  | updateConnection (conn : NetworkConnection)
  | apply
deriving DecidableEq, Repr

/-- State of the sending half of the action channel: `active` models a
live backend; `closed` models a closed queue / gone backend, on which
`send` returns `Err`. -/
inductive ChannelState
  | active
  | closed
deriving DecidableEq, Repr

/-- `Sender::send`: `Ok(())` on an active channel, `Err` (here `none`)
on a closed one. -/
def chSend (ch : ChannelState) (_a : Action) : Option Unit :=
  match ch with
  | .active => some ()
  | .closed => none

/-- The typed errors surfaced at the D-Bus boundary
(`NetworkStateError` and the address/type parse errors converted into
`zbus::fdo::Error`). -/
inductive NetworkStateError
  | unknownConnection (id : String)
  | addrParse
  | invalidIpMethod (s : String)
  | invalidWirelessMode (s : String)
  | invalidSecurityProtocol (s : String)
  | invalidDeviceType (ty : Nat)
deriving DecidableEq, Repr

/-- Outcome of a property write: success or typed error (each carrying
the connection state after the call and the actions enqueued during it),
or a process abort via panic. -/
inductive StepResult
  | ok (st : NetworkConnection) (sent : List Action)
  | err (e : NetworkStateError) (st : NetworkConnection) (sent : List Action)
  | panic (msg : String)
deriving DecidableEq, Repr

/-- Whether a write outcome is a success. -/
def StepResult.isOk : StepResult → Bool
  | .ok _ _ => true
  | _ => false

/-- Outcome of a property read: a value, or a process abort via
panic. -/
inductive ReadResult (α : Type)
  | ok (value : α)
  | panic (msg : String)
deriving DecidableEq, Repr

/-- Outcome of a collection-level method (add/remove/apply): success or
typed error, each carrying the enqueued actions, or a panic. -/
inductive QueueResult
  | ok (sent : List Action)
  | err (e : NetworkStateError) (sent : List Action)
  | panic (msg : String)
deriving DecidableEq, Repr

/-- Whether a collection-level outcome is a success. -/
def QueueResult.isOk : QueueResult → Bool
  | .ok _ => true
  | _ => false

/-- The panic message of `Result::unwrap` on the failed `send`. -/
def unwrapMsg : String := "called Result.unwrap on an Err value"

/-- The panic message of `Wireless::get_wireless` on a non-wireless
connection. -/
def wrongKindMsg : String := "Not a wireless network. This is most probably a bug."

/-- The model of Rust's `iter().map(parse).collect::<Result<Vec<_>, _>>()`:
all entries must parse, the first failure fails the whole collection. -/
def collectResults (f : α → Option β) : List α → Option (List β)
  | [] => some []
  | x :: xs =>
    match f x with
    | none => none
    | some y =>
      match collectResults f xs with
      | none => none
      | some ys => some (y :: ys)

/-! ## The D-Bus interface operations (`dbus/interfaces.rs`)

Each property setter takes the channel state and the connection state
held when the mutex was acquired, and returns a `StepResult`.  The
shared `update_connection` helper clones the post-mutation connection
into an `UpdateConnection` action and sends it, calling `unwrap` on the
send result. -/

/-- `Connection::update_connection` (and the identical helpers of
`Match`, `Ipv4` and `Ipv6`): enqueue `UpdateConnection` with a clone of
the guarded connection; `unwrap` panics if the send fails. -/
def update_connection (ch : ChannelState) (c : NetworkConnection) : StepResult :=
  match chSend ch (Action.updateConnection c) with
  | some _ => .ok c [Action.updateConnection c]
  | none => .panic unwrapMsg

/-- `Wireless::update_connection`: rebuilds the full connection from the
mapped wireless guard before enqueueing. -/
def Wireless.update_connection (ch : ChannelState) (w : WirelessConnection) :
    StepResult :=
  let c := NetworkConnection.wireless w
  match chSend ch (Action.updateConnection c) with
  | some _ => .ok c [Action.updateConnection c]
  | none => .panic unwrapMsg

/-- `Devices::get_devices`: registry device paths converted through
`ObjectPath::try_from`, dropping entries that fail conversion. -/
def Devices.get_devices (reg : ObjectsRegistry) : List String :=
  reg.devices_paths.filterMap
    (fun p => if validObjectPath p then some p else none)

/-- `Connections::get_connections`: registry connection paths converted
through `ObjectPath::try_from`, dropping entries that fail
conversion. -/
def Connections.get_connections (reg : ObjectsRegistry) : List String :=
  reg.connections_paths.filterMap
    (fun p => if validObjectPath p then some p else none)

/-- `Connections::add_connection`: `ty.try_into()?` propagates an
invalid type before the send; the send result is unwrapped. -/
def Connections.add_connection (ch : ChannelState) (id : String) (ty : Nat) :
    QueueResult :=
  match deviceTypeFromByte ty with
  | none => .err (.invalidDeviceType ty) []
  | some dt =>
    match chSend ch (Action.addConnection id dt) with
    | some _ => .ok [Action.addConnection id dt]
    | none => .panic unwrapMsg

/-- `Connections::get_connection`: the registered path, or
`UnknownConnection` if the id is not registered. -/
def Connections.get_connection (reg : ObjectsRegistry) (id : String) :
    Except NetworkStateError String :=
  match reg.connection_path id with
  | some path => .ok path
  | none => .error (.unknownConnection id)

/-- `Connections::remove_connection`: enqueue `RemoveConnection`,
unwrapping the send result. -/
def Connections.remove_connection (ch : ChannelState) (id : String) :
    QueueResult :=
  match chSend ch (Action.removeConnection id) with
  | some _ => .ok [Action.removeConnection id]
  | none => .panic unwrapMsg

/-- `Connections::apply`: enqueue `Apply`, unwrapping the send
result. -/
def Connections.applyCall (ch : ChannelState) : QueueResult :=
  match chSend ch Action.apply with
  | some _ => .ok [Action.apply]
  | none => .panic unwrapMsg

/-- `Connection::id` (read-only property). -/
def Connection.id (c : NetworkConnection) : String :=
  c.base.id

/-- `Connection::interface` (read). -/
def Connection.interface (c : NetworkConnection) : String :=
  c.base.interface

/-- `Connection::set_interface`: unvalidated assignment, then
enqueue. -/
def Connection.set_interface (ch : ChannelState) (c : NetworkConnection)
    (name : String) : StepResult :=
  update_connection ch
    (c.mapBase fun b => { b with interface := name })

/-- `Match::driver` (read). -/
def Match.driver (c : NetworkConnection) : List String :=
  c.base.matchConfig.driver

/-- `Match::set_driver`: verbatim assignment, then enqueue. -/
def Match.set_driver (ch : ChannelState) (c : NetworkConnection)
    (driver : List String) : StepResult :=
  update_connection ch
    (c.mapBase fun b => { b with matchConfig := { b.matchConfig with driver := driver } })

/-- `Match::path` (read). -/
def Match.path (c : NetworkConnection) : List String :=
  c.base.matchConfig.path

/-- `Match::set_path`: verbatim assignment, then enqueue. -/
def Match.set_path (ch : ChannelState) (c : NetworkConnection)
    (path : List String) : StepResult :=
  update_connection ch
    (c.mapBase fun b => { b with matchConfig := { b.matchConfig with path := path } })

/-- `Match::interface` (read). -/
def Match.interface (c : NetworkConnection) : List String :=
  c.base.matchConfig.interface

/-- `Match::set_interface`: verbatim assignment, then enqueue. -/
def Match.set_interface (ch : ChannelState) (c : NetworkConnection)
    (interface : List String) : StepResult :=
  update_connection ch
    (c.mapBase fun b => { b with matchConfig := { b.matchConfig with interface := interface } })

/-- `Match::kernel` (read). -/
def Match.kernel (c : NetworkConnection) : List String :=
  c.base.matchConfig.kernel

/-- `Match::set_kernel`: verbatim assignment, then enqueue. -/
def Match.set_kernel (ch : ChannelState) (c : NetworkConnection)
    (kernel : List String) : StepResult :=
  update_connection ch
    (c.mapBase fun b => { b with matchConfig := { b.matchConfig with kernel := kernel } })

/-- `Ipv4::set_addresses`: each entry parsed independently via
`filter_map`, unparsable entries dropped (with a logged diagnostic),
then assignment and enqueue. -/
def Ipv4.set_addresses (ch : ChannelState) (c : NetworkConnection)
    (addresses : List String) : StepResult :=
  let parsed := addresses.filterMap parseIpAddress4
  update_connection ch
    (c.mapBase fun b => { b with ipv4 := { b.ipv4 with addresses := parsed } })

/-- `Ipv4::set_method`: strict enum parse, `?`-propagated on failure. -/
def Ipv4.set_method (ch : ChannelState) (c : NetworkConnection)
    (method : String) : StepResult :=
  match parseIpMethod method with
  | none => .err (.invalidIpMethod method) c []
  | some m =>
    update_connection ch
      (c.mapBase fun b => { b with ipv4 := { b.ipv4 with method := m } })

/-- `Ipv4::set_nameservers`: strict `collect::<Result<...>>` — any
parse failure fails the whole call before the assignment. -/
def Ipv4.set_nameservers (ch : ChannelState) (c : NetworkConnection)
    (addresses : List String) : StepResult :=
  match collectResults parseIpv4Addr addresses with
  | none => .err .addrParse c []
  | some parsed =>
    update_connection ch
      (c.mapBase fun b => { b with ipv4 := { b.ipv4 with nameservers := parsed } })

/-- `Ipv4::set_gateway`: the empty string clears the gateway; otherwise
a strict parse, `?`-propagated on failure. -/
def Ipv4.set_gateway (ch : ChannelState) (c : NetworkConnection)
    (gateway : String) : StepResult :=
  if gateway = "" then
    update_connection ch
      (c.mapBase fun b => { b with ipv4 := { b.ipv4 with gateway := none } })
  else
    match parseIpv4Addr gateway with
    | none => .err .addrParse c []
    | some a =>
      update_connection ch
        (c.mapBase fun b => { b with ipv4 := { b.ipv4 with gateway := some a } })

/-- `Ipv6::set_addresses`: each entry parsed independently via
`filter_map`, unparsable entries dropped, then assignment and
enqueue. -/
def Ipv6.set_addresses (ch : ChannelState) (c : NetworkConnection)
    (addresses : List String) : StepResult :=
  let parsed := addresses.filterMap parseIpAddress6
  update_connection ch
    (c.mapBase fun b => { b with ipv6 := { b.ipv6 with addresses := parsed } })

/-- `Ipv6::set_method`: strict enum parse, `?`-propagated on failure. -/
def Ipv6.set_method (ch : ChannelState) (c : NetworkConnection)
    (method : String) : StepResult :=
  match parseIpMethod method with
  | none => .err (.invalidIpMethod method) c []
  | some m =>
    update_connection ch
      (c.mapBase fun b => { b with ipv6 := { b.ipv6 with method := m } })

/-- `Ipv6::set_nameservers`: strict `collect::<Result<...>>` — any
parse failure fails the whole call before the assignment. -/
def Ipv6.set_nameservers (ch : ChannelState) (c : NetworkConnection)
    (addresses : List String) : StepResult :=
  match collectResults parseIpv6Addr addresses with
  | none => .err .addrParse c []
  | some parsed =>
    update_connection ch
      (c.mapBase fun b => { b with ipv6 := { b.ipv6 with nameservers := parsed } })

/-- `Ipv6::set_gateway`: the empty string clears the gateway; otherwise
a strict parse, `?`-propagated on failure. -/
def Ipv6.set_gateway (ch : ChannelState) (c : NetworkConnection)
    (gateway : String) : StepResult :=
  if gateway = "" then
    update_connection ch
      (c.mapBase fun b => { b with ipv6 := { b.ipv6 with gateway := none } })
  else
    match parseIpv6Addr gateway with
    | none => .err .addrParse c []
    | some a =>
      update_connection ch
        (c.mapBase fun b => { b with ipv6 := { b.ipv6 with gateway := some a } })

/-- `Wireless::ssid` (read): panics via `get_wireless` on a non-wireless
connection. -/
def Wireless.get_ssid (c : NetworkConnection) : ReadResult (List Nat) :=
  match getWireless c with
  | none => .panic wrongKindMsg
  | some w => .ok w.wireless.ssid

/-- `Wireless::set_ssid`: `get_wireless` (panics on wrong variant),
verbatim byte assignment, enqueue. -/
def Wireless.set_ssid (ch : ChannelState) (c : NetworkConnection)
    (ssid : List Nat) : StepResult :=
  match getWireless c with
  | none => .panic wrongKindMsg
  | some w =>
    Wireless.update_connection ch
      { w with wireless := { w.wireless with ssid := ssid } }

/-- `Wireless::mode` (read): panics via `get_wireless` on a non-wireless
connection. -/
def Wireless.get_mode (c : NetworkConnection) : ReadResult WirelessMode :=
  match getWireless c with
  | none => .panic wrongKindMsg
  | some w => .ok w.wireless.mode

/-- `Wireless::set_mode`: `get_wireless` first (panics on wrong
variant), then strict parse, then enqueue. -/
def Wireless.set_mode (ch : ChannelState) (c : NetworkConnection)
    (mode : String) : StepResult :=
  match getWireless c with
  | none => .panic wrongKindMsg
  | some w =>
    match parseWirelessMode mode with
    | none => .err (.invalidWirelessMode mode) c []
    | some m =>
      Wireless.update_connection ch
        { w with wireless := { w.wireless with mode := m } }

/-- `Wireless::password` (read): panics via `get_wireless` on a
non-wireless connection; `None` reads as the empty string. -/
def Wireless.get_password (c : NetworkConnection) : ReadResult String :=
  match getWireless c with
  | none => .panic wrongKindMsg
  | some w => .ok (w.wireless.password.getD "")

/-- `Wireless::set_password`: `get_wireless` first (panics on wrong
variant); the empty string clears the password. -/
def Wireless.set_password (ch : ChannelState) (c : NetworkConnection)
    (password : String) : StepResult :=
  match getWireless c with
  | none => .panic wrongKindMsg
  | some w =>
    let pw := if password = "" then none else some password
    Wireless.update_connection ch
      { w with wireless := { w.wireless with password := pw } }

/-- `Wireless::security` (read): panics via `get_wireless` on a
non-wireless connection. -/
def Wireless.get_security (c : NetworkConnection) : ReadResult SecurityProtocol :=
  match getWireless c with
  | none => .panic wrongKindMsg
  | some w => .ok w.wireless.security

/-- `Wireless::set_security`: `get_wireless` first (panics on wrong
variant), then strict parse mapped to `InvalidSecurityProtocol`, then
enqueue. -/
def Wireless.set_security (ch : ChannelState) (c : NetworkConnection)
    (security : String) : StepResult :=
  match getWireless c with
  | none => .panic wrongKindMsg
  | some w =>
    match parseSecurityProtocol security with
    | none => .err (.invalidSecurityProtocol security) c []
    | some sec =>
      Wireless.update_connection ch
        { w with wireless := { w.wireless with security := sec } }

/-! ## The write operations as one syntactic class

Used to quantify over every property setter that enqueues an
`UpdateConnection` intent. -/

/-- One write request to any of the property setters of the connection
adapters. -/
inductive WriteOp
  | connSetInterface (name : String)
  | matchSetDriver (xs : List String)
  | matchSetPath (xs : List String)
  | matchSetInterface (xs : List String)
  | matchSetKernel (xs : List String)
  | ipv4SetAddresses (xs : List String)
  | ipv4SetMethod (s : String)
  | ipv4SetNameservers (xs : List String)
  | ipv4SetGateway (s : String)
  | ipv6SetAddresses (xs : List String)
  | ipv6SetMethod (s : String)
  | ipv6SetNameservers (xs : List String)
  | ipv6SetGateway (s : String)
  | wifiSetSsid (bytes : List Nat)
  | wifiSetMode (s : String)
  | wifiSetPassword (s : String)
  | wifiSetSecurity (s : String)

/-- Dispatch a write request to the setter it names. -/
def runWriteOp (op : WriteOp) (ch : ChannelState) (c : NetworkConnection) :
    StepResult :=
  match op with
  | .connSetInterface name => Connection.set_interface ch c name
  | .matchSetDriver xs => Match.set_driver ch c xs
  | .matchSetPath xs => Match.set_path ch c xs
  | .matchSetInterface xs => Match.set_interface ch c xs
  | .matchSetKernel xs => Match.set_kernel ch c xs
  | .ipv4SetAddresses xs => Ipv4.set_addresses ch c xs
  | .ipv4SetMethod s => Ipv4.set_method ch c s
  | .ipv4SetNameservers xs => Ipv4.set_nameservers ch c xs
  | .ipv4SetGateway s => Ipv4.set_gateway ch c s
  | .ipv6SetAddresses xs => Ipv6.set_addresses ch c xs
  | .ipv6SetMethod s => Ipv6.set_method ch c s
  | .ipv6SetNameservers xs => Ipv6.set_nameservers ch c xs
  | .ipv6SetGateway s => Ipv6.set_gateway ch c s
  | .wifiSetSsid bytes => Wireless.set_ssid ch c bytes
  | .wifiSetMode s => Wireless.set_mode ch c s
  | .wifiSetPassword s => Wireless.set_password ch c s
  | .wifiSetSecurity s => Wireless.set_security ch c s

/-! ## Projections used to state frame conditions -/

/-- The variant tag of a connection. -/
def tagOf : NetworkConnection → DeviceType
  | .ethernet _ => .ethernet
  | .loopback _ => .loopback
  | .wireless _ => .wireless

/-- The wireless-only fields, when the connection holds them. -/
def wifiOf : NetworkConnection → Option WirelessConfig
  | .wireless w => some w.wireless
  | _ => none

/-- The components every property write must leave alone: all fields of
the connection other than the one the operation writes. -/
def framePreserved : WriteOp → NetworkConnection → NetworkConnection → Prop
  | .connSetInterface _, c, st =>
    tagOf st = tagOf c ∧ st.base.id = c.base.id ∧
    st.base.matchConfig = c.base.matchConfig ∧
    st.base.ipv4 = c.base.ipv4 ∧ st.base.ipv6 = c.base.ipv6 ∧
    wifiOf st = wifiOf c
  | .matchSetDriver _, c, st =>
    tagOf st = tagOf c ∧ st.base.id = c.base.id ∧
    st.base.interface = c.base.interface ∧
    st.base.matchConfig.path = c.base.matchConfig.path ∧
    st.base.matchConfig.interface = c.base.matchConfig.interface ∧
    st.base.matchConfig.kernel = c.base.matchConfig.kernel ∧
    st.base.ipv4 = c.base.ipv4 ∧ st.base.ipv6 = c.base.ipv6 ∧
    wifiOf st = wifiOf c
  | .matchSetPath _, c, st =>
    tagOf st = tagOf c ∧ st.base.id = c.base.id ∧
    st.base.interface = c.base.interface ∧
    st.base.matchConfig.driver = c.base.matchConfig.driver ∧
    st.base.matchConfig.interface = c.base.matchConfig.interface ∧
    st.base.matchConfig.kernel = c.base.matchConfig.kernel ∧
    st.base.ipv4 = c.base.ipv4 ∧ st.base.ipv6 = c.base.ipv6 ∧
    wifiOf st = wifiOf c
  | .matchSetInterface _, c, st =>
    tagOf st = tagOf c ∧ st.base.id = c.base.id ∧
    st.base.interface = c.base.interface ∧
    st.base.matchConfig.driver = c.base.matchConfig.driver ∧
    st.base.matchConfig.path = c.base.matchConfig.path ∧
    st.base.matchConfig.kernel = c.base.matchConfig.kernel ∧
    st.base.ipv4 = c.base.ipv4 ∧ st.base.ipv6 = c.base.ipv6 ∧
    wifiOf st = wifiOf c
  | .matchSetKernel _, c, st =>
    tagOf st = tagOf c ∧ st.base.id = c.base.id ∧
    st.base.interface = c.base.interface ∧
    st.base.matchConfig.driver = c.base.matchConfig.driver ∧
    st.base.matchConfig.path = c.base.matchConfig.path ∧
    st.base.matchConfig.interface = c.base.matchConfig.interface ∧
    st.base.ipv4 = c.base.ipv4 ∧ st.base.ipv6 = c.base.ipv6 ∧
    wifiOf st = wifiOf c
  | .ipv4SetAddresses _, c, st =>
    tagOf st = tagOf c ∧ st.base.id = c.base.id ∧
    st.base.interface = c.base.interface ∧
    st.base.matchConfig = c.base.matchConfig ∧
    st.base.ipv4.method = c.base.ipv4.method ∧
    st.base.ipv4.nameservers = c.base.ipv4.nameservers ∧
    st.base.ipv4.gateway = c.base.ipv4.gateway ∧
    st.base.ipv6 = c.base.ipv6 ∧ wifiOf st = wifiOf c
  | .ipv4SetMethod _, c, st =>
    tagOf st = tagOf c ∧ st.base.id = c.base.id ∧
    st.base.interface = c.base.interface ∧
    st.base.matchConfig = c.base.matchConfig ∧
    st.base.ipv4.addresses = c.base.ipv4.addresses ∧
    st.base.ipv4.nameservers = c.base.ipv4.nameservers ∧
    st.base.ipv4.gateway = c.base.ipv4.gateway ∧
    st.base.ipv6 = c.base.ipv6 ∧ wifiOf st = wifiOf c
  | .ipv4SetNameservers _, c, st =>
    tagOf st = tagOf c ∧ st.base.id = c.base.id ∧
    st.base.interface = c.base.interface ∧
    st.base.matchConfig = c.base.matchConfig ∧
    st.base.ipv4.addresses = c.base.ipv4.addresses ∧
    st.base.ipv4.method = c.base.ipv4.method ∧
    st.base.ipv4.gateway = c.base.ipv4.gateway ∧
    st.base.ipv6 = c.base.ipv6 ∧ wifiOf st = wifiOf c
  | .ipv4SetGateway _, c, st =>
    tagOf st = tagOf c ∧ st.base.id = c.base.id ∧
    st.base.interface = c.base.interface ∧
    st.base.matchConfig = c.base.matchConfig ∧
    st.base.ipv4.addresses = c.base.ipv4.addresses ∧
    st.base.ipv4.method = c.base.ipv4.method ∧
    st.base.ipv4.nameservers = c.base.ipv4.nameservers ∧
    st.base.ipv6 = c.base.ipv6 ∧ wifiOf st = wifiOf c
  | .ipv6SetAddresses _, c, st =>
    tagOf st = tagOf c ∧ st.base.id = c.base.id ∧
    st.base.interface = c.base.interface ∧
    st.base.matchConfig = c.base.matchConfig ∧
    st.base.ipv4 = c.base.ipv4 ∧
    st.base.ipv6.method = c.base.ipv6.method ∧
    st.base.ipv6.nameservers = c.base.ipv6.nameservers ∧
    st.base.ipv6.gateway = c.base.ipv6.gateway ∧
    wifiOf st = wifiOf c
  | .ipv6SetMethod _, c, st =>
    tagOf st = tagOf c ∧ st.base.id = c.base.id ∧
    st.base.interface = c.base.interface ∧
    st.base.matchConfig = c.base.matchConfig ∧
    st.base.ipv4 = c.base.ipv4 ∧
    st.base.ipv6.addresses = c.base.ipv6.addresses ∧
    st.base.ipv6.nameservers = c.base.ipv6.nameservers ∧
    st.base.ipv6.gateway = c.base.ipv6.gateway ∧
    wifiOf st = wifiOf c
  | .ipv6SetNameservers _, c, st =>
    tagOf st = tagOf c ∧ st.base.id = c.base.id ∧
    st.base.interface = c.base.interface ∧
    st.base.matchConfig = c.base.matchConfig ∧
    st.base.ipv4 = c.base.ipv4 ∧
    st.base.ipv6.addresses = c.base.ipv6.addresses ∧
    st.base.ipv6.method = c.base.ipv6.method ∧
    st.base.ipv6.gateway = c.base.ipv6.gateway ∧
    wifiOf st = wifiOf c
  | .ipv6SetGateway _, c, st =>
    tagOf st = tagOf c ∧ st.base.id = c.base.id ∧
    st.base.interface = c.base.interface ∧
    st.base.matchConfig = c.base.matchConfig ∧
    st.base.ipv4 = c.base.ipv4 ∧
    st.base.ipv6.addresses = c.base.ipv6.addresses ∧
    st.base.ipv6.method = c.base.ipv6.method ∧
    st.base.ipv6.nameservers = c.base.ipv6.nameservers ∧
    wifiOf st = wifiOf c
  | .wifiSetSsid _, c, st =>
    tagOf st = tagOf c ∧ st.base = c.base ∧
    (wifiOf st).map WirelessConfig.mode = (wifiOf c).map WirelessConfig.mode ∧
    (wifiOf st).map WirelessConfig.password = (wifiOf c).map WirelessConfig.password ∧
    (wifiOf st).map WirelessConfig.security = (wifiOf c).map WirelessConfig.security
  | .wifiSetMode _, c, st =>
    tagOf st = tagOf c ∧ st.base = c.base ∧
    (wifiOf st).map WirelessConfig.ssid = (wifiOf c).map WirelessConfig.ssid ∧
    (wifiOf st).map WirelessConfig.password = (wifiOf c).map WirelessConfig.password ∧
    (wifiOf st).map WirelessConfig.security = (wifiOf c).map WirelessConfig.security
  | .wifiSetPassword _, c, st =>
    tagOf st = tagOf c ∧ st.base = c.base ∧
    (wifiOf st).map WirelessConfig.ssid = (wifiOf c).map WirelessConfig.ssid ∧
    (wifiOf st).map WirelessConfig.mode = (wifiOf c).map WirelessConfig.mode ∧
    (wifiOf st).map WirelessConfig.security = (wifiOf c).map WirelessConfig.security
  | .wifiSetSecurity _, c, st =>
    tagOf st = tagOf c ∧ st.base = c.base ∧
    (wifiOf st).map WirelessConfig.ssid = (wifiOf c).map WirelessConfig.ssid ∧
    (wifiOf st).map WirelessConfig.mode = (wifiOf c).map WirelessConfig.mode ∧
    (wifiOf st).map WirelessConfig.password = (wifiOf c).map WirelessConfig.password

/-! ## Sample data for concrete evaluations -/

/-- An empty match configuration. -/
def sampleMatch : MatchConfig := ⟨[], [], [], []⟩

/-- A small IPv4 configuration with a nameserver and a gateway set. -/
def sampleIp4 : IpConfig Ipv4Addr :=
  ⟨[(⟨192, 168, 122, 10⟩, 24)], .manual, [⟨1, 1, 1, 1⟩], some ⟨192, 168, 122, 1⟩⟩

/-- A small IPv6 configuration. -/
def sampleIp6 : IpConfig Ipv6Addr :=
  ⟨[], .auto, [], none⟩

/-- Shared fields of the sample connections. -/
def sampleBase : BaseConnection :=
  ⟨"eth-test", "eth0", sampleMatch, sampleIp4, sampleIp6⟩

/-- A sample ethernet (non-wireless) connection. -/
def sampleEth : NetworkConnection := .ethernet sampleBase

/-- A sample wireless connection. -/
def sampleWifi : NetworkConnection :=
  .wireless ⟨sampleBase, ⟨[97, 103], .infrastructure, none, .wpaPsk⟩⟩

/-- A sample registry holding one device and one connection. -/
def sampleReg : ObjectsRegistry :=
  ⟨[("eth0", "/org/opensuse/Agama1/Network/devices/0")],
   [("eth-test", "/org/opensuse/Agama1/Network/connections/0")]⟩

/-! ## Helper lemmas -/

/-- Inversion of a successful `update_connection`: the channel was
active, the enqueued snapshot is the post-mutation state, and it is the
only enqueued action. -/
theorem update_connection_ok {ch : ChannelState} {c st : NetworkConnection}
    {sent : List Action} (h : update_connection ch c = .ok st sent) :
    st = c ∧ sent = [Action.updateConnection c] := by
  cases ch <;> simp [update_connection, chSend] at h
  exact ⟨h.1.symm, h.2.symm⟩

/-- Inversion of a successful `Wireless::update_connection`: the
enqueued snapshot is the rebuilt wireless connection. -/
theorem wifi_update_connection_ok {ch : ChannelState} {w : WirelessConnection}
    {st : NetworkConnection} {sent : List Action}
    (h : Wireless.update_connection ch w = .ok st sent) :
    st = .wireless w ∧ sent = [Action.updateConnection (.wireless w)] := by
  cases ch <;> simp [Wireless.update_connection, chSend] at h
  exact ⟨h.1.symm, h.2.symm⟩

/-- `filterMap` with a validity filter is the identity on lists whose
entries all pass the filter. -/
theorem filterMap_valid_id (q : α → Bool) (l : List α)
    (h : ∀ p ∈ l, q p = true) :
    l.filterMap (fun p => if q p then some p else none) = l := by
  induction l with
  | nil => rfl
  | cons x xs ih =>
    rw [List.filterMap_cons]
    rw [if_pos (h x (by simp)), ih fun p hp => h p (by simp [hp])]

/-- A strict `collect` fails as soon as one entry fails to parse. -/
theorem collectResults_eq_none {f : α → Option β} {xs : List α}
    (h : ∃ x ∈ xs, f x = none) : collectResults f xs = none := by
  induction xs with
  | nil => simp at h
  | cons a as ih =>
    obtain ⟨x, hx, hfx⟩ := h
    rcases List.mem_cons.mp hx with hxa | hxas
    · subst hxa
      simp [collectResults, hfx]
    · simp only [collectResults]
      cases hfa : f a with
      | none => rfl
      | some y => rw [ih ⟨x, hxas, hfx⟩]

/-! ## The claims -/

/-- The connection with only the IPv4 gateway field replaced, as
`Ipv4::set_gateway` writes it through `ipv4_mut()`. -/
def withGateway4 (c : NetworkConnection) (g : Option Ipv4Addr) :
    NetworkConnection :=
  c.mapBase fun b => { b with ipv4 := { b.ipv4 with gateway := g } }

/-- The connection with only the IPv6 gateway field replaced, as
`Ipv6::set_gateway` writes it through `ipv6_mut()`. -/
def withGateway6 (c : NetworkConnection) (g : Option Ipv6Addr) :
    NetworkConnection :=
  c.mapBase fun b => { b with ipv6 := { b.ipv6 with gateway := g } }

/-- C3: writing a nameserver list containing an entry that does not
parse as an address of the facet's family returns a validation error,
leaves the connection (in particular its stored nameserver list) exactly
as it was, and enqueues no `UpdateConnection` intent — for both the IPv4
and the IPv6 facet. -/
theorem c3_nameservers_strict (ch : ChannelState) (c : NetworkConnection)
    (xs ys : List String)
    (h4 : ∃ x ∈ xs, parseIpv4Addr x = none)
    (h6 : ∃ y ∈ ys, parseIpv6Addr y = none) :
    Ipv4.set_nameservers ch c xs = .err .addrParse c [] ∧
    Ipv6.set_nameservers ch c ys = .err .addrParse c [] := by
  constructor
  · simp [Ipv4.set_nameservers, collectResults_eq_none h4]
  · simp [Ipv6.set_nameservers, collectResults_eq_none h6]

/-- Witness for C3: one bad IPv4 entry among good ones, and a bad IPv6
entry, each rejected with the state unchanged and nothing enqueued. -/
theorem c3_nameservers_strict_witness :
    (∃ x ∈ ["1.1.1.1", "nope"], parseIpv4Addr x = none) ∧
    (∃ y ∈ ["zzz"], parseIpv6Addr y = none) ∧
    Ipv4.set_nameservers .active sampleEth ["1.1.1.1", "nope"] =
      .err .addrParse sampleEth [] ∧
    Ipv6.set_nameservers .active sampleEth ["zzz"] =
      .err .addrParse sampleEth [] := by
  obtain ⟨h1, h2⟩ :=
    c3_nameservers_strict .active sampleEth ["1.1.1.1", "nope"] ["zzz"]
      (by decide) (by decide)
  exact ⟨by decide, by decide, h1, h2⟩

/-- C4: writing an address list always succeeds (on a live channel) and
stores exactly the subsequence of entries that parse as address/prefix
values of the facet's family, in input order; unparsable entries are
dropped — for both the IPv4 and the IPv6 facet. -/
theorem c4_addresses_best_effort (c : NetworkConnection) (xs ys : List String) :
    (∃ st, Ipv4.set_addresses .active c xs =
        .ok st [Action.updateConnection st] ∧
      st.base.ipv4.addresses = xs.filterMap parseIpAddress4) ∧
    (∃ st, Ipv6.set_addresses .active c ys =
        .ok st [Action.updateConnection st] ∧
      st.base.ipv6.addresses = ys.filterMap parseIpAddress6) := by
  constructor
  · refine ⟨c.mapBase fun b =>
      { b with ipv4 := { b.ipv4 with addresses := xs.filterMap parseIpAddress4 } },
      ?_, ?_⟩
    · rfl
    · cases c <;> rfl
  · refine ⟨c.mapBase fun b =>
      { b with ipv6 := { b.ipv6 with addresses := ys.filterMap parseIpAddress6 } },
      ?_, ?_⟩
    · rfl
    · cases c <;> rfl

/-- C5: for both facets, setting the gateway to the empty string clears
it (regardless of prior value) and succeeds; a non-empty string that
does not parse in the facet's family (e.g. an other-family literal)
fails with a validation error leaving the connection untouched and
enqueueing nothing; a parseable address of the matching family becomes
the stored gateway. -/
theorem c5_gateway (ch : ChannelState) (c : NetworkConnection)
    (e4 e6 s4 s6 : String) (a4 : Ipv4Addr) (a6 : Ipv6Addr)
    (hbad4 : e4 ≠ "" ∧ parseIpv4Addr e4 = none)
    (hbad6 : e6 ≠ "" ∧ parseIpv6Addr e6 = none)
    (hok4 : parseIpv4Addr s4 = some a4)
    (hok6 : parseIpv6Addr s6 = some a6) :
    Ipv4.set_gateway .active c "" =
      .ok (withGateway4 c none) [Action.updateConnection (withGateway4 c none)] ∧
    (withGateway4 c none).base.ipv4.gateway = none ∧
    Ipv4.set_gateway ch c e4 = .err .addrParse c [] ∧
    Ipv4.set_gateway .active c s4 =
      .ok (withGateway4 c (some a4))
        [Action.updateConnection (withGateway4 c (some a4))] ∧
    (withGateway4 c (some a4)).base.ipv4.gateway = some a4 ∧
    Ipv6.set_gateway .active c "" =
      .ok (withGateway6 c none) [Action.updateConnection (withGateway6 c none)] ∧
    (withGateway6 c none).base.ipv6.gateway = none ∧
    Ipv6.set_gateway ch c e6 = .err .addrParse c [] ∧
    Ipv6.set_gateway .active c s6 =
      .ok (withGateway6 c (some a6))
        [Action.updateConnection (withGateway6 c (some a6))] ∧
    (withGateway6 c (some a6)).base.ipv6.gateway = some a6 := by
  have hs4 : ¬ s4 = "" := by
    intro h
    rw [h] at hok4
    rw [show parseIpv4Addr "" = none from rfl] at hok4
    exact Option.noConfusion hok4
  have hs6 : ¬ s6 = "" := by
    intro h
    rw [h] at hok6
    rw [show parseIpv6Addr "" = none from rfl] at hok6
    exact Option.noConfusion hok6
  refine ⟨rfl, by cases c <;> rfl, ?_, ?_, by cases c <;> rfl,
          rfl, by cases c <;> rfl, ?_, ?_, by cases c <;> rfl⟩
  · simp [Ipv4.set_gateway, hbad4.1, hbad4.2]
  · simp [Ipv4.set_gateway, hs4, hok4, update_connection, chSend, withGateway4]
  · simp [Ipv6.set_gateway, hbad6.1, hbad6.2]
  · simp [Ipv6.set_gateway, hs6, hok6, update_connection, chSend, withGateway6]

/-- Witness for C5: clearing with "", an IPv6 literal rejected on the
IPv4 facet (and an IPv4 literal on the IPv6 facet), and matching-family
addresses stored. -/
theorem c5_gateway_witness :
    ((("::1" : String) ≠ "" ∧ parseIpv4Addr "::1" = none) ∧
      (("192.168.1.1" : String) ≠ "" ∧ parseIpv6Addr "192.168.1.1" = none) ∧
      parseIpv4Addr "192.168.122.5" = some ⟨192, 168, 122, 5⟩ ∧
      parseIpv6Addr "::1" = some ⟨[0, 0, 0, 0, 0, 0, 0, 1]⟩) ∧
    Ipv4.set_gateway .active sampleEth "::1" = .err .addrParse sampleEth [] ∧
    Ipv6.set_gateway .active sampleEth "192.168.1.1" =
      .err .addrParse sampleEth [] ∧
    Ipv4.set_gateway .active sampleEth "" =
      .ok (withGateway4 sampleEth none)
        [Action.updateConnection (withGateway4 sampleEth none)] ∧
    Ipv4.set_gateway .active sampleEth "192.168.122.5" =
      .ok (withGateway4 sampleEth (some ⟨192, 168, 122, 5⟩))
        [Action.updateConnection (withGateway4 sampleEth (some ⟨192, 168, 122, 5⟩))] ∧
    Ipv6.set_gateway .active sampleEth "::1" =
      .ok (withGateway6 sampleEth (some ⟨[0, 0, 0, 0, 0, 0, 0, 1]⟩))
        [Action.updateConnection (withGateway6 sampleEth (some ⟨[0, 0, 0, 0, 0, 0, 0, 1]⟩))] := by
  obtain ⟨h1, h2, h3, h4, h5, h6, h7, h8, h9, h10⟩ :=
    c5_gateway .active sampleEth "::1" "192.168.1.1" "192.168.122.5" "::1"
      ⟨192, 168, 122, 5⟩ ⟨[0, 0, 0, 0, 0, 0, 0, 1]⟩
      ⟨by decide, by decide⟩ ⟨by decide, by decide⟩ (by decide) (by decide)
  exact ⟨⟨⟨by decide, by decide⟩, ⟨by decide, by decide⟩, by decide, by decide⟩,
    h3, h8, h1, h4, h9⟩

/-- C1, counterexample: on a non-wireless connection the SSID accessors
do not return a typed failure — both the read and the write abort the
process via the `get_wireless` panic. -/
theorem c1_counterexample :
    Wireless.get_ssid sampleEth = ReadResult.panic wrongKindMsg ∧
    Wireless.set_ssid .active sampleEth [1, 2] = StepResult.panic wrongKindMsg :=
  ⟨rfl, rfl⟩

/-- C1, amended: every wireless-only property accessor (SSID, Mode,
Password, Security, read or write) invoked while the underlying
connection does not hold the Wireless variant aborts the process with
the `get_wireless` panic (mutating nothing and enqueueing nothing); it
does not return a typed failure. -/
theorem c1_wireless_wrong_variant (ch : ChannelState) (c : NetworkConnection)
    (h : getWireless c = none) (bytes : List Nat) (s : String) :
    Wireless.get_ssid c = ReadResult.panic wrongKindMsg ∧
    Wireless.get_mode c = ReadResult.panic wrongKindMsg ∧
    Wireless.get_password c = ReadResult.panic wrongKindMsg ∧
    Wireless.get_security c = ReadResult.panic wrongKindMsg ∧
    Wireless.set_ssid ch c bytes = StepResult.panic wrongKindMsg ∧
    Wireless.set_mode ch c s = StepResult.panic wrongKindMsg ∧
    Wireless.set_password ch c s = StepResult.panic wrongKindMsg ∧
    Wireless.set_security ch c s = StepResult.panic wrongKindMsg := by
  simp [Wireless.get_ssid, Wireless.get_mode, Wireless.get_password,
    Wireless.get_security, Wireless.set_ssid, Wireless.set_mode,
    Wireless.set_password, Wireless.set_security, h]

/-- Witness for the amended C1 on the sample ethernet connection. -/
theorem c1_wireless_wrong_variant_witness :
    getWireless sampleEth = none ∧
    Wireless.get_mode sampleEth = ReadResult.panic wrongKindMsg ∧
    Wireless.set_security .active sampleEth "wpa-psk" =
      StepResult.panic wrongKindMsg := by
  obtain ⟨-, h2, -, -, -, -, -, h8⟩ :=
    c1_wireless_wrong_variant .active sampleEth rfl [] "wpa-psk"
  exact ⟨rfl, h2, h8⟩

/-- C2, counterexample: when the action queue is closed, `Apply` and a
property setter do not return an error to the caller — they abort the
process via `unwrap` on the failed send. -/
theorem c2_counterexample :
    Connections.applyCall .closed = QueueResult.panic unwrapMsg ∧
    Connection.set_interface .closed sampleEth "eth1" =
      StepResult.panic unwrapMsg :=
  ⟨rfl, rfl⟩

/-- C2, amended: when the send fails because the queue is closed or the
backend is gone, no operation reports success and the failure is never
silently swallowed — but instead of returning an error, every operation
that reaches the enqueue aborts the process via `unwrap`
(`RemoveConnection`, `Apply` and a validly-typed `AddConnection`
panic unconditionally). -/
theorem c2_enqueue_failure (op : WriteOp) (c : NetworkConnection)
    (id : String) (ty : Nat) (dt : DeviceType)
    (h : deviceTypeFromByte ty = some dt) :
    (runWriteOp op .closed c).isOk = false ∧
    Connections.remove_connection .closed id = .panic unwrapMsg ∧
    Connections.applyCall .closed = .panic unwrapMsg ∧
    Connections.add_connection .closed id ty = .panic unwrapMsg := by
  refine ⟨?_, rfl, rfl, by simp [Connections.add_connection, h, chSend]⟩
  cases op <;>
    simp only [runWriteOp, Connection.set_interface, Match.set_driver,
      Match.set_path, Match.set_interface, Match.set_kernel,
      Ipv4.set_addresses, Ipv4.set_method, Ipv4.set_nameservers,
      Ipv4.set_gateway, Ipv6.set_addresses, Ipv6.set_method,
      Ipv6.set_nameservers, Ipv6.set_gateway, Wireless.set_ssid,
      Wireless.set_mode, Wireless.set_password, Wireless.set_security] <;>
    (repeat' split) <;>
    simp [update_connection, Wireless.update_connection, chSend,
      StepResult.isOk]

/-- Witness for the amended C2: the concrete operations on a closed
channel with a valid type byte. -/
theorem c2_enqueue_failure_witness :
    deviceTypeFromByte 1 = some .ethernet ∧
    (runWriteOp (.connSetInterface "eth1") .closed sampleEth).isOk = false ∧
    Connections.remove_connection .closed "eth-test" = .panic unwrapMsg ∧
    Connections.applyCall .closed = .panic unwrapMsg ∧
    Connections.add_connection .closed "eth-test" 1 = .panic unwrapMsg := by
  obtain ⟨h1, h2, h3, h4⟩ :=
    c2_enqueue_failure (.connSetInterface "eth1") sampleEth "eth-test" 1
      .ethernet (by decide)
  exact ⟨by decide, h1, h2, h3, h4⟩

/-- C6: every successful property write enqueues exactly one
`UpdateConnection` intent whose snapshot is exactly the post-mutation
connection state, and every component of the connection other than the
field written carries the value held when the lock was acquired. -/
theorem c6_update_snapshot (op : WriteOp) (ch : ChannelState)
    (c st : NetworkConnection) (sent : List Action)
    (h : runWriteOp op ch c = .ok st sent) :
    sent = [Action.updateConnection st] ∧ framePreserved op c st := by
  cases op with
  | connSetInterface name =>
    simp only [runWriteOp, Connection.set_interface] at h
    obtain ⟨hst, hsent⟩ := update_connection_ok h
    subst hst; subst hsent
    exact ⟨rfl, by cases c <;> simp [framePreserved, tagOf, wifiOf,
      NetworkConnection.mapBase, NetworkConnection.base]⟩
  | matchSetDriver xs =>
    simp only [runWriteOp, Match.set_driver] at h
    obtain ⟨hst, hsent⟩ := update_connection_ok h
    subst hst; subst hsent
    exact ⟨rfl, by cases c <;> simp [framePreserved, tagOf, wifiOf,
      NetworkConnection.mapBase, NetworkConnection.base]⟩
  | matchSetPath xs =>
    simp only [runWriteOp, Match.set_path] at h
    obtain ⟨hst, hsent⟩ := update_connection_ok h
    subst hst; subst hsent
    exact ⟨rfl, by cases c <;> simp [framePreserved, tagOf, wifiOf,
      NetworkConnection.mapBase, NetworkConnection.base]⟩
  | matchSetInterface xs =>
    simp only [runWriteOp, Match.set_interface] at h
    obtain ⟨hst, hsent⟩ := update_connection_ok h
    subst hst; subst hsent
    exact ⟨rfl, by cases c <;> simp [framePreserved, tagOf, wifiOf,
      NetworkConnection.mapBase, NetworkConnection.base]⟩
  | matchSetKernel xs =>
    simp only [runWriteOp, Match.set_kernel] at h
    obtain ⟨hst, hsent⟩ := update_connection_ok h
    subst hst; subst hsent
    exact ⟨rfl, by cases c <;> simp [framePreserved, tagOf, wifiOf,
      NetworkConnection.mapBase, NetworkConnection.base]⟩
  | ipv4SetAddresses xs =>
    simp only [runWriteOp, Ipv4.set_addresses] at h
    obtain ⟨hst, hsent⟩ := update_connection_ok h
    subst hst; subst hsent
    exact ⟨rfl, by cases c <;> simp [framePreserved, tagOf, wifiOf,
      NetworkConnection.mapBase, NetworkConnection.base]⟩
  | ipv4SetMethod s =>
    simp only [runWriteOp, Ipv4.set_method] at h
    cases hp : parseIpMethod s with
    | none => simp [hp] at h
    | some m =>
      simp only [hp] at h
      obtain ⟨hst, hsent⟩ := update_connection_ok h
      subst hst; subst hsent
      exact ⟨rfl, by cases c <;> simp [framePreserved, tagOf, wifiOf,
        NetworkConnection.mapBase, NetworkConnection.base]⟩
  | ipv4SetNameservers xs =>
    simp only [runWriteOp, Ipv4.set_nameservers] at h
    cases hp : collectResults parseIpv4Addr xs with
    | none => simp [hp] at h
    | some parsed =>
      simp only [hp] at h
      obtain ⟨hst, hsent⟩ := update_connection_ok h
      subst hst; subst hsent
      exact ⟨rfl, by cases c <;> simp [framePreserved, tagOf, wifiOf,
        NetworkConnection.mapBase, NetworkConnection.base]⟩
  | ipv4SetGateway s =>
    simp only [runWriteOp, Ipv4.set_gateway] at h
    by_cases hemp : s = ""
    · simp only [hemp, if_pos rfl] at h
      obtain ⟨hst, hsent⟩ := update_connection_ok h
      subst hst; subst hsent
      exact ⟨rfl, by cases c <;> simp [framePreserved, tagOf, wifiOf,
        NetworkConnection.mapBase, NetworkConnection.base]⟩
    · rw [if_neg hemp] at h
      cases hp : parseIpv4Addr s with
      | none => simp [hp] at h
      | some a =>
        simp only [hp] at h
        obtain ⟨hst, hsent⟩ := update_connection_ok h
        subst hst; subst hsent
        exact ⟨rfl, by cases c <;> simp [framePreserved, tagOf, wifiOf,
          NetworkConnection.mapBase, NetworkConnection.base]⟩
  | ipv6SetAddresses xs =>
    simp only [runWriteOp, Ipv6.set_addresses] at h
    obtain ⟨hst, hsent⟩ := update_connection_ok h
    subst hst; subst hsent
    exact ⟨rfl, by cases c <;> simp [framePreserved, tagOf, wifiOf,
      NetworkConnection.mapBase, NetworkConnection.base]⟩
  | ipv6SetMethod s =>
    simp only [runWriteOp, Ipv6.set_method] at h
    cases hp : parseIpMethod s with
    | none => simp [hp] at h
    | some m =>
      simp only [hp] at h
      obtain ⟨hst, hsent⟩ := update_connection_ok h
      subst hst; subst hsent
      exact ⟨rfl, by cases c <;> simp [framePreserved, tagOf, wifiOf,
        NetworkConnection.mapBase, NetworkConnection.base]⟩
  | ipv6SetNameservers xs =>
    simp only [runWriteOp, Ipv6.set_nameservers] at h
    cases hp : collectResults parseIpv6Addr xs with
    | none => simp [hp] at h
    | some parsed =>
      simp only [hp] at h
      obtain ⟨hst, hsent⟩ := update_connection_ok h
      subst hst; subst hsent
      exact ⟨rfl, by cases c <;> simp [framePreserved, tagOf, wifiOf,
        NetworkConnection.mapBase, NetworkConnection.base]⟩
  | ipv6SetGateway s =>
    simp only [runWriteOp, Ipv6.set_gateway] at h
    by_cases hemp : s = ""
    · simp only [hemp, if_pos rfl] at h
      obtain ⟨hst, hsent⟩ := update_connection_ok h
      subst hst; subst hsent
      exact ⟨rfl, by cases c <;> simp [framePreserved, tagOf, wifiOf,
        NetworkConnection.mapBase, NetworkConnection.base]⟩
    · rw [if_neg hemp] at h
      cases hp : parseIpv6Addr s with
      | none => simp [hp] at h
      | some a =>
        simp only [hp] at h
        obtain ⟨hst, hsent⟩ := update_connection_ok h
        subst hst; subst hsent
        exact ⟨rfl, by cases c <;> simp [framePreserved, tagOf, wifiOf,
          NetworkConnection.mapBase, NetworkConnection.base]⟩
  | wifiSetSsid bytes =>
    simp only [runWriteOp, Wireless.set_ssid] at h
    cases hw : getWireless c with
    | none => simp [hw] at h
    | some w =>
      simp only [hw] at h
      obtain ⟨hst, hsent⟩ := wifi_update_connection_ok h
      subst hst; subst hsent
      refine ⟨rfl, ?_⟩
      cases c with
      | wireless w0 =>
        simp only [getWireless, Option.some.injEq] at hw
        subst hw
        simp [framePreserved, tagOf, wifiOf, NetworkConnection.base]
      | ethernet b => simp [getWireless] at hw
      | loopback b => simp [getWireless] at hw
  | wifiSetMode s =>
    simp only [runWriteOp, Wireless.set_mode] at h
    cases hw : getWireless c with
    | none => simp [hw] at h
    | some w =>
      simp only [hw] at h
      cases hp : parseWirelessMode s with
      | none => simp [hp] at h
      | some m =>
        simp only [hp] at h
        obtain ⟨hst, hsent⟩ := wifi_update_connection_ok h
        subst hst; subst hsent
        refine ⟨rfl, ?_⟩
        cases c with
        | wireless w0 =>
          simp only [getWireless, Option.some.injEq] at hw
          subst hw
          simp [framePreserved, tagOf, wifiOf, NetworkConnection.base]
        | ethernet b => simp [getWireless] at hw
        | loopback b => simp [getWireless] at hw
  | wifiSetPassword s =>
    simp only [runWriteOp, Wireless.set_password] at h
    cases hw : getWireless c with
    | none => simp [hw] at h
    | some w =>
      simp only [hw] at h
      obtain ⟨hst, hsent⟩ := wifi_update_connection_ok h
      subst hst; subst hsent
      refine ⟨rfl, ?_⟩
      cases c with
      | wireless w0 =>
        simp only [getWireless, Option.some.injEq] at hw
        subst hw
        simp [framePreserved, tagOf, wifiOf, NetworkConnection.base]
      | ethernet b => simp [getWireless] at hw
      | loopback b => simp [getWireless] at hw
  | wifiSetSecurity s =>
    simp only [runWriteOp, Wireless.set_security] at h
    cases hw : getWireless c with
    | none => simp [hw] at h
    | some w =>
      simp only [hw] at h
      cases hp : parseSecurityProtocol s with
      | none => simp [hp] at h
      | some sec =>
        simp only [hp] at h
        obtain ⟨hst, hsent⟩ := wifi_update_connection_ok h
        subst hst; subst hsent
        refine ⟨rfl, ?_⟩
        cases c with
        | wireless w0 =>
          simp only [getWireless, Option.some.injEq] at hw
          subst hw
          simp [framePreserved, tagOf, wifiOf, NetworkConnection.base]
        | ethernet b => simp [getWireless] at hw
        | loopback b => simp [getWireless] at hw

/-- Witness for C6: a concrete successful interface write whose only
enqueued intent carries the post-mutation snapshot. -/
theorem c6_update_snapshot_witness :
    [Action.updateConnection
        (sampleEth.mapBase fun b => { b with interface := "eth1" })] =
      [Action.updateConnection
        (sampleEth.mapBase fun b => { b with interface := "eth1" })] ∧
    framePreserved (.connSetInterface "eth1") sampleEth
      (sampleEth.mapBase fun b => { b with interface := "eth1" }) :=
  c6_update_snapshot (.connSetInterface "eth1") .active sampleEth
    (sampleEth.mapBase fun b => { b with interface := "eth1" })
    [Action.updateConnection
      (sampleEth.mapBase fun b => { b with interface := "eth1" })] rfl

/-- C7: `GetConnection(id)` returns the registered path when a
connection with that id is in the registry, and fails with the typed
`UnknownConnection` (not-found) error — not a crash — when no connection
with that id is registered. -/
theorem c7_get_connection (reg : ObjectsRegistry) (id p : String) :
    (reg.connection_path id = some p →
      Connections.get_connection reg id = .ok p) ∧
    (reg.connection_path id = none →
      Connections.get_connection reg id = .error (.unknownConnection id)) := by
  constructor <;> intro h <;> simp [Connections.get_connection, h]

/-- Witness for C7 on the sample registry: a registered id resolves to
its path and a missing id yields `UnknownConnection`. -/
theorem c7_get_connection_witness :
    (sampleReg.connection_path "eth-test" =
        some "/org/opensuse/Agama1/Network/connections/0" ∧
      Connections.get_connection sampleReg "eth-test" =
        .ok "/org/opensuse/Agama1/Network/connections/0") ∧
    (sampleReg.connection_path "missing-id" = none ∧
      Connections.get_connection sampleReg "missing-id" =
        .error (.unknownConnection "missing-id")) :=
  ⟨⟨by decide,
    (c7_get_connection sampleReg "eth-test"
      "/org/opensuse/Agama1/Network/connections/0").1 (by decide)⟩,
   ⟨by decide,
    (c7_get_connection sampleReg "missing-id" "").2 (by decide)⟩⟩

/-- C8: `GetDevices` and `GetConnections` are total (they return a plain
sequence, no failure outcome exists) and, for a registry whose stored
paths are syntactically valid object paths, return exactly the
registry's device (resp. connection) path contents, in registry
order. -/
theorem c8_get_paths (reg : ObjectsRegistry)
    (hdev : ∀ p ∈ reg.devices_paths, validObjectPath p = true)
    (hcon : ∀ p ∈ reg.connections_paths, validObjectPath p = true) :
    Devices.get_devices reg = reg.devices_paths ∧
    Connections.get_connections reg = reg.connections_paths :=
  ⟨filterMap_valid_id validObjectPath reg.devices_paths hdev,
   filterMap_valid_id validObjectPath reg.connections_paths hcon⟩

/-- Witness for C8 on the sample registry, whose paths are valid. -/
theorem c8_get_paths_witness :
    (∀ p ∈ sampleReg.devices_paths, validObjectPath p = true) ∧
    (∀ p ∈ sampleReg.connections_paths, validObjectPath p = true) ∧
    Devices.get_devices sampleReg = sampleReg.devices_paths ∧
    Connections.get_connections sampleReg = sampleReg.connections_paths :=
  ⟨by decide, by decide,
   (c8_get_paths sampleReg (by decide) (by decide)).1,
   (c8_get_paths sampleReg (by decide) (by decide)).2⟩

/-- C9: each match-config setter (`Driver`, `Path`, `Interface`,
`Kernel`) accepts any string list verbatim, succeeds (on a live
channel), and a subsequent read of the same property returns the list
unchanged. -/
theorem c9_match_verbatim (c : NetworkConnection) (xs : List String) :
    (∃ st sent, Match.set_driver .active c xs = .ok st sent ∧
      Match.driver st = xs) ∧
    (∃ st sent, Match.set_path .active c xs = .ok st sent ∧
      Match.path st = xs) ∧
    (∃ st sent, Match.set_interface .active c xs = .ok st sent ∧
      Match.interface st = xs) ∧
    (∃ st sent, Match.set_kernel .active c xs = .ok st sent ∧
      Match.kernel st = xs) := by
  refine ⟨⟨_, _, rfl, ?_⟩, ⟨_, _, rfl, ?_⟩, ⟨_, _, rfl, ?_⟩, ⟨_, _, rfl, ?_⟩⟩ <;>
    cases c <;> rfl

/-- C10: `AddConnection(id, ty)` with a type byte that does not
correspond to a known device type returns an error and enqueues
nothing; with a valid type byte it enqueues exactly one
`AddConnection(id, ty)` intent. -/
theorem c10_add_connection (ch : ChannelState) (id : String) (ty : Nat)
    (dt : DeviceType) :
    (deviceTypeFromByte ty = none →
      Connections.add_connection ch id ty = .err (.invalidDeviceType ty) []) ∧
    (deviceTypeFromByte ty = some dt →
      Connections.add_connection .active id ty =
        .ok [Action.addConnection id dt]) := by
  constructor <;> intro h <;>
    simp [Connections.add_connection, h, chSend]

/-- Witness for C10: type byte 7 is rejected with no enqueue, type
byte 2 enqueues one wireless `AddConnection` intent. -/
theorem c10_add_connection_witness :
    (deviceTypeFromByte 7 = none ∧
      Connections.add_connection .active "eth-test" 7 =
        .err (.invalidDeviceType 7) []) ∧
    (deviceTypeFromByte 2 = some .wireless ∧
      Connections.add_connection .active "wlan-test" 2 =
        .ok [Action.addConnection "wlan-test" .wireless]) :=
  ⟨⟨by decide,
    (c10_add_connection .active "eth-test" 7 .wireless).1 (by decide)⟩,
   ⟨by decide,
    (c10_add_connection .active "wlan-test" 2 .wireless).2 (by decide)⟩⟩

end Agama

